import Mathlib

/-!
Shallow embedding of the Locomotive Traction & Performance Simulation Engine
(`app/tools/vehicle_performance/service.py`, `schemas.py`) of the repository.

Python floats are modelled as exact rationals (`ℚ`); `math.pi` is embedded as
the exact rational value of the IEEE-754 double `math.pi`.  Python functions
that `raise` are modelled with `Except String`.  `numpy.interp`,
`numpy.linspace` and `numpy.arange` are embedded by their documented exact
semantics on the sorted inputs the service hands them.  The degree→percent
slope conversion branch of the constructor uses `math.tan` and is
transcendental; no claim touches it, so inputs here carry `max_slope` already
normalized to percent (the `slope_unit = "%"` default path of the code).
-/

namespace VehiclePerf

/-- Gravitational acceleration constant `9.81` used throughout `service.py`. -/
def grav : ℚ := 981 / 100

/-- The IEEE-754 double `math.pi` as an exact rational: `884279719003555 / 2^48`. -/
def pi_f : ℚ := 884279719003555 / 281474976710656

/-- `rolling_resistance_loco(speed_kmh, weight_ton, num_axles)` from `service.py`:
`(A + B·V + C·V²)·W·g` with `A = 0.647 + 13.17/(W/axles)`, `B = 0.00933`,
`C = 0.057/W`; guarded to return `0` for non-positive weight or axle count. -/
def rolling_resistance_loco (speed_kmh weight_ton : ℚ) (num_axles : ℤ) : ℚ :=
  if weight_ton ≤ 0 ∨ num_axles ≤ 0 then 0
  else
    ((647 / 1000 + (1317 / 100) / (weight_ton / (num_axles : ℚ)))
      + (933 / 100000) * speed_kmh
      + ((57 / 1000) / weight_ton) * speed_kmh ^ 2) * weight_ton * grav

/-- `rolling_resistance_wagon(speed_kmh, weight_ton)` from `service.py`:
`(A + B·V + C·V²)·W·g` with the wagon coefficients `A = 0.6438797`,
`B = 0.01047218`, `C = 0.00007323`; guarded to return `0` for non-positive weight. -/
def rolling_resistance_wagon (speed_kmh weight_ton : ℚ) : ℚ :=
  if weight_ton ≤ 0 then 0
  else
    ((6438797 / 10000000)
      + (1047218 / 100000000) * speed_kmh
      + (7323 / 100000000) * speed_kmh ^ 2) * weight_ton * grav

/-- `gradient_resistance(weight_ton, slope_percent)` from `service.py`:
`W · 1000 · g · slope / 100`. -/
def gradient_resistance (weight_ton slope_percent : ℚ) : ℚ :=
  weight_ton * 1000 * grav * slope_percent / 100

/-- `curvature_resistance(weight_ton, curve_degree)` from `service.py`:
`0.4 · W · D · g`. -/
def curvature_resistance (weight_ton curve_degree : ℚ) : ℚ :=
  (4 / 10) * weight_ton * curve_degree * grav

/-- `starting_resistance_loco(weight_ton)` from `service.py`: `6 · W · g`. -/
def starting_resistance_loco (weight_ton : ℚ) : ℚ :=
  6 * weight_ton * grav

/-- `starting_resistance_wagon(weight_ton)` from `service.py`: `4 · W · g`. -/
def starting_resistance_wagon (weight_ton : ℚ) : ℚ :=
  4 * weight_ton * grav

/-- Python's banker's rounding of a rational to the nearest integer
(round half to even), the semantics of the builtin `round`. -/
def roundHalfEven (x : ℚ) : ℤ :=
  let f := ⌊x⌋
  let r := x - (f : ℚ)
  if r < 1 / 2 then f
  else if 1 / 2 < r then f + 1
  else if f % 2 = 0 then f else f + 1

/-- Python's `round(x, 2)`: banker's rounding to two decimal places. -/
def pyRound2 (x : ℚ) : ℚ :=
  ((roundHalfEven (x * 100) : ℤ) : ℚ) / 100

/-- Python's `max` over a list (the code only calls it on validated
non-empty `gear_ratios` / torque-curve values; `[]` is given a junk value 0). -/
def pymax : List ℚ → ℚ
  | [] => 0
  | h :: t => t.foldl max h

/-- Python's `min` over a list (same usage notes as `pymax`). -/
def pymin : List ℚ → ℚ
  | [] => 0
  | h :: t => t.foldl min h

/-- `numpy.linspace a b n`: `n` evenly spaced samples from `a` to `b`,
both endpoints included: sample `i` is `a + (b − a)·i/(n−1)`. -/
def linspace (a b : ℚ) (n : ℕ) : List ℚ :=
  (List.range n).map (fun i : ℕ => a + (b - a) * (i : ℚ) / ((n : ℚ) - 1))

/-- `numpy.arange 0 (maxs + 0.5) 0.5` as used for the slope sweep:
the multiples `0, 0.5, 1, …` strictly below `maxs + 0.5`. -/
def slopeList (maxs : ℚ) : List ℚ :=
  (List.range (Int.toNat ⌈(maxs + 1 / 2) / (1 / 2)⌉)).map (fun i : ℕ => (i : ℚ) * (1 / 2))

/-- Core of `numpy.interp` on a list of `(rpm, torque)` points whose keys are
sorted ascending (the service sorts the dict keys before the call): clamp to
the endpoint torques outside the key range, linear interpolation between the
two bracketing points inside it.  (`[]` is given a junk value; the wrapper
`interpolate_torque` rejects it.) -/
def interpPoints (x : ℚ) : List (ℚ × ℚ) → ℚ
  | [] => 0
  | [p] => p.2
  | p :: q :: rest =>
      if x ≤ p.1 then p.2
      else if x ≤ q.1 then p.2 + (q.2 - p.2) * (x - p.1) / (q.1 - p.1)
      else interpPoints x (q :: rest)

/-- `interpolate_torque(engine_rpm, curve)` from `service.py`: raises
`ValueError` on an empty curve, otherwise `numpy.interp` over the sorted
points. -/
def interpolate_torque (engine_rpm : ℚ) (curve : List (ℚ × ℚ)) : Except String ℚ :=
  if curve.isEmpty then .error "Torque curve is empty."
  else .ok (interpPoints engine_rpm curve)

/-- The validated inputs dict handed to `VehiclePerformanceCalculator`
(internal field names, after `validation.py`'s renaming).  The torque curve is
the dict's association list sorted ascending by RPM key. -/
structure VPInputs where
  max_curve : ℚ
  curve_unit : String
  max_slope : ℚ
  loco_gvw_kg : ℚ
  max_speed_kmh : ℚ
  num_axles : ℤ
  rear_axle_ratio : ℚ
  gear_ratios : List ℚ
  shunting_load_t : ℚ
  peak_power_kw : ℚ
  friction_mu : ℚ
  wheel_dia_m : ℚ
  min_rpm : ℚ
  max_rpm : ℚ
  torque_curve : List (ℚ × ℚ)
deriving DecidableEq

/-- The schema-level validation of `VehiclePerformanceInput` (`schemas.py`):
`loco_gvw`, `max_speed`, `peak_power`, `wheel_dia` positive; `num_axles`,
`min_rpm`, `max_rpm` positive; `friction_mu ∈ (0, 1]`; `gear_ratios`
non-empty with every entry positive.  (No validator covers
`rear_axle_ratio`, `shunting_load`, `max_curve` or `max_slope`.) -/
def schema_validate (i : VPInputs) : Except String VPInputs :=
  if i.loco_gvw_kg ≤ 0 ∨ i.max_speed_kmh ≤ 0 ∨ i.peak_power_kw ≤ 0 ∨ i.wheel_dia_m ≤ 0 then
    .error "Physical parameters (weight, speed, power, wheel diameter) must be positive"
  else if i.num_axles ≤ 0 ∨ i.min_rpm ≤ 0 ∨ i.max_rpm ≤ 0 then
    .error "Integer parameters (axles, RPM values) must be positive"
  else if ¬ (0 < i.friction_mu ∧ i.friction_mu ≤ 1) then
    .error "Friction coefficient must be between 0 and 1 (exclusive of 0)"
  else if i.gear_ratios = [] then
    .error "At least one gear ratio is required for transmission analysis"
  else if i.gear_ratios.any (fun r => r ≤ 0) then
    .error "All gear ratios must be positive values"
  else .ok i

/-- The state built by `VehiclePerformanceCalculator.__init__`. -/
structure Calc where
  max_curve_deg : ℚ
  max_slope_percent : ℚ
  loco_gvw_ton : ℚ
  max_speed_kmh : ℚ
  num_axles : ℤ
  rear_axle_ratio : ℚ
  gear_ratios : List ℚ
  shunting_load_t : ℚ
  peak_power_kw : ℚ
  friction_mu : ℚ
  wheel_dia_m : ℚ
  min_rpm : ℚ
  max_rpm : ℚ
  torque_curve : List (ℚ × ℚ)
  max_torque_nm : ℚ
deriving DecidableEq

/-- `VehiclePerformanceCalculator.__init__`: converts a curve radius given in
meters to an equivalent degree via `1750 / radius` only when the radius is
non-zero, converts weight kg→tonnes, and raises `ValueError` when the torque
curve is empty or missing. -/
def Calc.init (i : VPInputs) : Except String Calc :=
  if i.torque_curve = [] then .error "Torque Curve is empty or missing."
  else .ok {
    max_curve_deg :=
      if i.curve_unit = "m" ∧ i.max_curve ≠ 0 then 1750 / i.max_curve else i.max_curve
    max_slope_percent := i.max_slope
    loco_gvw_ton := i.loco_gvw_kg / 1000
    max_speed_kmh := i.max_speed_kmh
    num_axles := i.num_axles
    rear_axle_ratio := i.rear_axle_ratio
    gear_ratios := i.gear_ratios
    shunting_load_t := i.shunting_load_t
    peak_power_kw := i.peak_power_kw
    friction_mu := i.friction_mu
    wheel_dia_m := i.wheel_dia_m
    min_rpm := i.min_rpm
    max_rpm := i.max_rpm
    torque_curve := i.torque_curve
    max_torque_nm := pymax (i.torque_curve.map (fun p => p.2)) }

/-- Speed→engine-RPM conversion used at each solver sample (`service.py`
lines 431–435 and 558–562): `speed/3.6` m/s, wheel RPM via circumference
`π·d` (guarded), then `· gear · rearAxleRatio`. -/
def engine_rpm (c : Calc) (gear speed_kmh : ℚ) : ℚ :=
  let speed_mps := speed_kmh / (36 / 10)
  let circ := pi_f * c.wheel_dia_m
  let wheel_rpm := if circ > 0 then speed_mps / circ * 60 else 0
  wheel_rpm * gear * c.rear_axle_ratio

/-- Instantaneous power in kW implied by a torque at an engine RPM:
`rpm · torque · 2π / (60·1000)`. -/
def power_kw (rpm torque : ℚ) : ℚ :=
  rpm * torque * 2 * pi_f / (60 * 1000)

/-- The power-limiting step (`service.py` lines 441–443 and 567–570): if the
implied power exceeds `peak_power_kw` at positive RPM, replace the torque by
the one that exactly yields `peak_power_kw` at that RPM. -/
def limited_torque (c : Calc) (rpm torque : ℚ) : ℚ :=
  if power_kw rpm torque > c.peak_power_kw ∧ rpm > 0 then
    c.peak_power_kw * 60 * 1000 / (rpm * 2 * pi_f)
  else torque

/-- Generated traction force (`service.py` lines 446 and 573):
`2 · torque · gear · rearAxleRatio / wheelDiameter`. -/
def traction_generated (c : Calc) (gear torque : ℚ) : ℚ :=
  2 * (torque * gear * c.rear_axle_ratio) / c.wheel_dia_m

/-- Adhesion (slipping) traction ceiling (`service.py` lines 447 and 574):
`weightTon · μ · 1000 · g`. -/
def traction_slipping (c : Calc) : ℚ :=
  c.loco_gvw_ton * c.friction_mu * 1000 * grav

/-- Achievable traction (`service.py` lines 448 and 575):
`min(generated, slipping)`. -/
def actual_traction (c : Calc) (gear torque : ℚ) : ℚ :=
  min (traction_generated c gear torque) (traction_slipping c)

/-- Locomotive resistance used by the curve sweep (`service.py` lines
451–456): rolling + gradient + curvature + starting. -/
def loco_resistance_start (c : Calc) (speed_kmh slope : ℚ) : ℚ :=
  rolling_resistance_loco speed_kmh c.loco_gvw_ton c.num_axles
    + gradient_resistance c.loco_gvw_ton slope
    + curvature_resistance c.loco_gvw_ton c.max_curve_deg
    + starting_resistance_loco c.loco_gvw_ton

/-- Total resistance of a fixed 1-tonne reference wagon (`service.py` lines
464–469): the denominator of the shunting-capacity formula. -/
def one_ton_wagon_resistance (c : Calc) (speed_kmh slope : ℚ) : ℚ :=
  rolling_resistance_wagon speed_kmh 1
    + gradient_resistance 1 slope
    + curvature_resistance 1 c.max_curve_deg
    + starting_resistance_wagon 1

/-- The shunting-capacity value of one sample (`service.py` lines 458–471):
`0` unless the remaining traction after locomotive resistance is positive and
the 1-tonne wagon resistance is positive, in which case remaining / per-tonne. -/
def shunting_capacity_y (c : Calc) (speed_kmh slope actual : ℚ) : ℚ :=
  let remaining := actual - loco_resistance_start c speed_kmh slope
  if remaining > 0 then
    if one_ton_wagon_resistance c speed_kmh slope > 0 then
      remaining / one_ton_wagon_resistance c speed_kmh slope
    else 0
  else 0

/-- One full solver evaluation of `_calculate_curves_common`'s inner loop
(`service.py` lines 430–474): RPM conversion, interpolation, power limiting,
adhesion-capped traction, then either the raw tractive effort or the
shunting capacity.  (The constructor guarantees a non-empty torque curve, so
`interpolate_torque` is `interpPoints` here.) -/
def sample_value (c : Calc) (calculate_shunting : Bool) (slope gear speed_kmh : ℚ) : ℚ :=
  let rpm := engine_rpm c gear speed_kmh
  let torque := limited_torque c rpm (interpPoints rpm c.torque_curve)
  let actual := actual_traction c gear torque
  if calculate_shunting then shunting_capacity_y c speed_kmh slope actual else actual

/-- One plot-data row (`service.py` lines 476–481). -/
structure PlotPoint where
  slope : ℚ
  gear : ℚ
  speed_kmh : ℚ
  value : ℚ
deriving DecidableEq

/-- The 100 speed samples of the curve sweep for one gear (`service.py` lines
422–428): `linspace` from `0.0` to the `max_rpm`-derived top speed
`max_rpm·π·d/(gear·rearAxleRatio·60)·3.6`. -/
def sweep_speeds (c : Calc) (gear : ℚ) : List ℚ :=
  linspace 0 ((c.max_rpm * pi_f * c.wheel_dia_m) / (gear * c.rear_axle_ratio * 60) * (36 / 10)) 100

/-- `_calculate_curves_common(calculate_shunting)` (`service.py` lines
411–482): the slope × gear × speed sweep, silently skipping (`continue`) any
gear combination with a non-positive rear-axle ratio, wheel diameter or gear
ratio. -/
def calculate_curves_common (c : Calc) (calculate_shunting : Bool) : List PlotPoint :=
  (slopeList c.max_slope_percent).flatMap (fun slope =>
    c.gear_ratios.flatMap (fun gear =>
      if c.rear_axle_ratio ≤ 0 ∨ c.wheel_dia_m ≤ 0 ∨ gear ≤ 0 then []
      else
        (sweep_speeds c gear).map (fun speed =>
          { slope := pyRound2 slope
            gear := gear
            speed_kmh := pyRound2 speed
            value := pyRound2 (sample_value c calculate_shunting slope gear speed) })))

/-- Lower bound of the shunting-search speed range (`service.py` line 546):
the `min_rpm` speed in the highest gear. -/
def shunt_min_speed (c : Calc) : ℚ :=
  (c.min_rpm * pi_f * c.wheel_dia_m) / (pymax c.gear_ratios * c.rear_axle_ratio * 60) * (36 / 10)

/-- Upper bound of the shunting-search speed range (`service.py` line 547):
the `max_rpm` speed in the lowest gear. -/
def shunt_max_speed (c : Calc) : ℚ :=
  (c.max_rpm * pi_f * c.wheel_dia_m) / (pymin c.gear_ratios * c.rear_axle_ratio * 60) * (36 / 10)

/-- The speed samples of `calculate_speed_for_shunting_load` (`service.py`
lines 545–550): 100 `linspace` points across the gear-derived range. -/
def shunt_speeds (c : Calc) : List ℚ :=
  linspace (shunt_min_speed c) (shunt_max_speed c) 100

/-- Achievable traction at one shunting-search speed (`service.py` lines
557–575): always uses the highest gear ratio. -/
def shunt_traction (c : Calc) (speed_kmh : ℚ) : ℚ :=
  let rpm := engine_rpm c (pymax c.gear_ratios) speed_kmh
  let torque := limited_torque c rpm (interpPoints rpm c.torque_curve)
  actual_traction c (pymax c.gear_ratios) torque

/-- Total running resistance in the shunting search (`service.py` lines
577–591): locomotive + trailing load, with NO starting-resistance term. -/
def shunt_resistance (c : Calc) (slope speed_kmh : ℚ) : ℚ :=
  (rolling_resistance_loco speed_kmh c.loco_gvw_ton c.num_axles
      + gradient_resistance c.loco_gvw_ton slope
      + curvature_resistance c.loco_gvw_ton c.max_curve_deg)
    + (rolling_resistance_wagon speed_kmh c.shunting_load_t
      + gradient_resistance c.shunting_load_t slope
      + curvature_resistance c.shunting_load_t c.max_curve_deg)

/-- The linear scan of `calculate_speed_for_shunting_load` for one slope
(`service.py` lines 554–595): starting from `0.0`, keep the last sampled
speed whose achievable traction covers the total resistance. -/
def max_achievable_speed (c : Calc) (slope : ℚ) : ℚ :=
  (shunt_speeds c).foldl
    (fun acc v => if shunt_resistance c slope v ≤ shunt_traction c v then v else acc) 0

/-- `calculate_speed_for_shunting_load` (`service.py` lines 509–601): raises
`ValueError` for a non-positive rear-axle ratio or wheel diameter, else the
rounded (slope, max achievable speed) table over the slope sweep. -/
def calculate_speed_for_shunting_load (c : Calc) : Except String (List (ℚ × ℚ)) :=
  if c.rear_axle_ratio ≤ 0 ∨ c.wheel_dia_m ≤ 0 then
    .error "Axle Ratio or Wheel Diameter cannot be zero."
  else
    .ok ((slopeList c.max_slope_percent).map
      (fun s => (pyRound2 s, pyRound2 (max_achievable_speed c s))))

/-- Result of `run_tractive_calculation` (`service.py` lines 332–372); the
`result_message` string is modelled by the Boolean `limited_by_slipping`
(`"Limited by slipping"` iff `generated > slipping`). -/
structure TractionResult where
  max_traction_generated_n : ℚ
  max_traction_slipping_n : ℚ
  limited_by_slipping : Bool
deriving DecidableEq

/-- `run_tractive_calculation` (`service.py` lines 332–372): raises for a
wheel diameter equal to zero, else the snapshot using the highest gear and
the maximum torque of the curve. -/
def run_tractive_calculation (c : Calc) : Except String TractionResult :=
  if c.wheel_dia_m = 0 then .error "Wheel Diameter cannot be zero."
  else
    let gen := 2 * (c.max_torque_nm * pymax c.gear_ratios * c.rear_axle_ratio) / c.wheel_dia_m
    let slip := c.loco_gvw_ton * c.friction_mu * 1000 * grav
    .ok { max_traction_generated_n := max gen 0
          max_traction_slipping_n := pyRound2 slip
          limited_by_slipping := gen > slip }

/-- The full result shape of `perform_vehicle_performance_calculation`. -/
structure Results where
  traction_snapshot : TractionResult
  tractive_effort_plot : List PlotPoint
  shunting_capability_plot : List PlotPoint
  speed_slope_table : List (ℚ × ℚ)
deriving DecidableEq

/-- `perform_vehicle_performance_calculation(inputs)` (`service.py` lines
713–751): construct the calculator, then the traction snapshot, both plot
datasets and the speed-vs-slope table; the first raised error propagates. -/
def perform_vehicle_performance_calculation (i : VPInputs) : Except String Results := do
  let c ← Calc.init i
  let snap ← run_tractive_calculation c
  let table ← calculate_speed_for_shunting_load c
  .ok { traction_snapshot := snap
        tractive_effort_plot := calculate_curves_common c false
        shunting_capability_plot := calculate_curves_common c true
        speed_slope_table := table }

/-- Claim-side definition following the spec's words (§4.4): the
`min_rpm`-derived lowest feasible speed of a gear under the solver's
RPM↔speed conversion — what the claim says the sweep's lowest sample
corresponds to. -/
def spec_min_speed_kmh (c : Calc) (gear : ℚ) : ℚ :=
  (c.min_rpm * pi_f * c.wheel_dia_m) / (gear * c.rear_axle_ratio * 60) * (36 / 10)

/-- Linear interpolation between two curve points, the formula of
`numpy.interp`'s interior case (the middle branch of `interpPoints`). -/
def lininterp (p q : ℚ × ℚ) (x : ℚ) : ℚ :=
  p.2 + (q.2 - p.2) * (x - p.1) / (q.1 - p.1)

/-- The torque-curve keys are strictly ascending — the shape `service.py`
produces by sorting the distinct dict keys. -/
def keysSorted (curve : List (ℚ × ℚ)) : Prop :=
  List.Chain' (fun p q => p.1 < q.1) curve

instance (curve : List (ℚ × ℚ)) : Decidable (keysSorted curve) := by
  unfold keysSorted; infer_instance

/-- The torque curve of the end-to-end scenario in spec §8:
`{400: 12000, 1200: 18000, 2100: 9000}`. -/
def exCurve : List (ℚ × ℚ) := [(400, 12000), (1200, 18000), (2100, 9000)]

/-- The end-to-end scenario of spec §8 (with the schema example's weight and
axle count for the fields the scenario leaves open). -/
def exampleInputs : VPInputs :=
  { max_curve := 0, curve_unit := "degree", max_slope := 2
    loco_gvw_kg := 120000, max_speed_kmh := 100, num_axles := 4
    rear_axle_ratio := 35 / 10, gear_ratios := [85 / 10], shunting_load_t := 100
    peak_power_kw := 2000, friction_mu := 35 / 100, wheel_dia_m := 125 / 100
    min_rpm := 400, max_rpm := 2100, torque_curve := exCurve }

/-- The calculator state `VehiclePerformanceCalculator.__init__` builds from
`exampleInputs`. -/
def exampleCalc : Calc :=
  { max_curve_deg := 0, max_slope_percent := 2
    loco_gvw_ton := 120, max_speed_kmh := 100, num_axles := 4
    rear_axle_ratio := 35 / 10, gear_ratios := [85 / 10], shunting_load_t := 100
    peak_power_kw := 2000, friction_mu := 35 / 100, wheel_dia_m := 125 / 100
    min_rpm := 400, max_rpm := 2100, torque_curve := exCurve, max_torque_nm := 18000 }

/-- A small single-gear, flat-track configuration used to instantiate
hypotheses on concrete inputs. -/
def smallCalc : Calc :=
  { max_curve_deg := 0, max_slope_percent := 0
    loco_gvw_ton := 10, max_speed_kmh := 100, num_axles := 4
    rear_axle_ratio := 1, gear_ratios := [1], shunting_load_t := 50
    peak_power_kw := 1000, friction_mu := 3 / 10, wheel_dia_m := 1
    min_rpm := 100, max_rpm := 200, torque_curve := [(0, 1000), (300, 1000)]
    max_torque_nm := 1000 }

/-- The schema's documented example input with `rear_axle_ratio` set to `0`:
every other field satisfies the schema validators. -/
def degenInputs : VPInputs :=
  { max_curve := 6, curve_unit := "degree", max_slope := 2
    loco_gvw_kg := 120000, max_speed_kmh := 100, num_axles := 4
    rear_axle_ratio := 0
    gear_ratios := [85 / 10, 62 / 10, 45 / 10, 32 / 10, 21 / 10]
    shunting_load_t := 2000, peak_power_kw := 2000, friction_mu := 35 / 100
    wheel_dia_m := 125 / 100, min_rpm := 400, max_rpm := 2100
    torque_curve := exCurve }

/-- The calculator state built from `degenInputs`. -/
def degenCalc : Calc :=
  { max_curve_deg := 6, max_slope_percent := 2
    loco_gvw_ton := 120, max_speed_kmh := 100, num_axles := 4
    rear_axle_ratio := 0
    gear_ratios := [85 / 10, 62 / 10, 45 / 10, 32 / 10, 21 / 10]
    shunting_load_t := 2000, peak_power_kw := 2000, friction_mu := 35 / 100
    wheel_dia_m := 125 / 100, min_rpm := 400, max_rpm := 2100
    torque_curve := exCurve, max_torque_nm := 18000 }

/-- `exampleInputs` with the torque curve removed (empty dict). -/
def emptyCurveInputs : VPInputs :=
  { exampleInputs with torque_curve := [] }

/- ======================  Helper lemmas  ====================== -/

lemma pi_f_pos : 0 < pi_f := by norm_num [pi_f]

lemma grav_pos : 0 < grav := by norm_num [grav]

lemma roundHalfEven_ge_floor (x : ℚ) : ⌊x⌋ ≤ roundHalfEven x := by
  unfold roundHalfEven; dsimp only; split_ifs <;> omega

lemma roundHalfEven_le_floor_add_one (x : ℚ) : roundHalfEven x ≤ ⌊x⌋ + 1 := by
  unfold roundHalfEven; dsimp only; split_ifs <;> omega

lemma roundHalfEven_mono {x y : ℚ} (h : x ≤ y) : roundHalfEven x ≤ roundHalfEven y := by
  rcases lt_or_eq_of_le (Int.floor_mono h) with hf | hf
  · calc roundHalfEven x ≤ ⌊x⌋ + 1 := roundHalfEven_le_floor_add_one x
      _ ≤ ⌊y⌋ := by omega
      _ ≤ roundHalfEven y := roundHalfEven_ge_floor y
  · have hr : x - (⌊x⌋ : ℚ) ≤ y - (⌊y⌋ : ℚ) := by
      rw [← hf]; linarith
    unfold roundHalfEven
    dsimp only
    rw [← hf]
    split_ifs <;> first | omega | linarith

lemma roundHalfEven_nonneg {x : ℚ} (hx : 0 ≤ x) : 0 ≤ roundHalfEven x :=
  le_trans (Int.floor_nonneg.mpr hx) (roundHalfEven_ge_floor x)

lemma pyRound2_nonneg {x : ℚ} (hx : 0 ≤ x) : 0 ≤ pyRound2 x := by
  unfold pyRound2
  have h : (0 : ℤ) ≤ roundHalfEven (x * 100) :=
    roundHalfEven_nonneg (by positivity)
  positivity

lemma pyRound2_mono {x y : ℚ} (h : x ≤ y) : pyRound2 x ≤ pyRound2 y := by
  unfold pyRound2
  have h1 : roundHalfEven (x * 100) ≤ roundHalfEven (y * 100) :=
    roundHalfEven_mono (by nlinarith)
  have h2 : ((roundHalfEven (x * 100) : ℤ) : ℚ) ≤ ((roundHalfEven (y * 100) : ℤ) : ℚ) := by
    exact_mod_cast h1
  linarith

lemma linspace_length (a b : ℚ) (n : ℕ) : (linspace a b n).length = n := by
  unfold linspace; rw [List.length_map, List.length_range]

lemma linspace_getD (a b : ℚ) {n i : ℕ} (h : i < n) (d : ℚ) :
    (linspace a b n).getD i d = a + (b - a) * (i : ℚ) / ((n : ℚ) - 1) := by
  have h1 : i < (linspace a b n).length := by rwa [linspace_length]
  rw [List.getD_eq_getElem _ _ h1]
  unfold linspace
  rw [List.getElem_map, List.getElem_range]

instance : IsTrans (ℚ × ℚ) (fun p q : ℚ × ℚ => p.1 < q.1) :=
  ⟨fun _ _ _ h1 h2 => lt_trans h1 h2⟩

lemma keysSorted_pairwise {curve : List (ℚ × ℚ)} (hs : keysSorted curve) :
    curve.Pairwise (fun p q => p.1 < q.1) :=
  List.chain'_iff_pairwise.mp hs

lemma keysSorted_tail {a : ℚ × ℚ} {rest : List (ℚ × ℚ)} (hs : keysSorted (a :: rest)) :
    keysSorted rest :=
  List.Chain'.tail hs

lemma keysSorted_head_le_get {q : ℚ × ℚ} {rest : List (ℚ × ℚ)}
    (hs : keysSorted (q :: rest)) (j : ℕ) (hj : j < (q :: rest).length) :
    q.1 ≤ ((q :: rest).get ⟨j, hj⟩).1 := by
  cases j with
  | zero => exact le_rfl
  | succ j' =>
    have hmem : (q :: rest).get ⟨j' + 1, hj⟩ ∈ rest := by
      rw [List.get_cons_succ]
      exact List.get_mem _ _ _
    exact le_of_lt (List.rel_of_pairwise_cons (keysSorted_pairwise hs) hmem)

lemma interpPoints_head_clamp (p : ℚ × ℚ) (rest : List (ℚ × ℚ)) (x : ℚ) (hx : x ≤ p.1) :
    interpPoints x (p :: rest) = p.2 := by
  cases rest with
  | nil => rfl
  | cons q rest2 => simp only [interpPoints, if_pos hx]

lemma interpPoints_mem {curve : List (ℚ × ℚ)} (hs : keysSorted curve) :
    ∀ p ∈ curve, interpPoints p.1 curve = p.2 := by
  induction curve with
  | nil => intro p hp; cases hp
  | cons a rest ih =>
    intro p hp
    rcases List.mem_cons.mp hp with rfl | hmem
    · exact interpPoints_head_clamp _ _ _ le_rfl
    · cases rest with
      | nil => cases hmem
      | cons q rest2 =>
        have hchain : keysSorted (q :: rest2) := keysSorted_tail hs
        have haq : a.1 < q.1 := (List.chain'_cons.mp hs).1
        have hq_le_p : q.1 ≤ p.1 := by
          rcases List.mem_cons.mp hmem with rfl | hm2
          · exact le_rfl
          · exact le_of_lt (List.rel_of_pairwise_cons (keysSorted_pairwise hchain) hm2)
        have hap : a.1 < p.1 := lt_of_lt_of_le haq hq_le_p
        show interpPoints p.1 (a :: q :: rest2) = p.2
        simp only [interpPoints]
        rw [if_neg (not_le.mpr hap)]
        by_cases hpq : p.1 ≤ q.1
        · have hpq' : p.1 = q.1 := le_antisymm hpq hq_le_p
          have hp_eq : p = q := by
            rcases List.mem_cons.mp hmem with rfl | hm2
            · rfl
            · exact absurd hpq'
                (ne_of_gt (List.rel_of_pairwise_cons (keysSorted_pairwise hchain) hm2))
          rw [if_pos hpq, hp_eq]
          rw [mul_div_assoc, div_self (ne_of_gt (sub_pos.mpr haq)), mul_one]
          ring
        · rw [if_neg hpq]
          exact ih hchain p hmem

lemma interpPoints_last_clamp {curve : List (ℚ × ℚ)} (hs : keysSorted curve)
    (hne : curve ≠ []) (x : ℚ) (hx : (curve.getLast hne).1 ≤ x) :
    interpPoints x curve = (curve.getLast hne).2 := by
  induction curve with
  | nil => exact absurd rfl hne
  | cons a rest ih =>
    cases rest with
    | nil => rfl
    | cons q rest2 =>
      have hne2 : q :: rest2 ≠ [] := List.cons_ne_nil q rest2
      have hlast : (a :: q :: rest2).getLast hne = (q :: rest2).getLast hne2 :=
        List.getLast_cons hne2
      have hchain : keysSorted (q :: rest2) := keysSorted_tail hs
      have haq : a.1 < q.1 := (List.chain'_cons.mp hs).1
      have hq_le_last : q.1 ≤ ((q :: rest2).getLast hne2).1 := by
        rcases List.mem_cons.mp (List.getLast_mem hne2) with heq | hm2
        · rw [heq]
        · exact le_of_lt (List.rel_of_pairwise_cons (keysSorted_pairwise hchain) hm2)
      simp only [hlast] at hx ⊢
      have hax : ¬ x ≤ a.1 :=
        not_le.mpr (lt_of_lt_of_le haq (le_trans hq_le_last hx))
      show interpPoints x (a :: q :: rest2) = ((q :: rest2).getLast hne2).2
      simp only [interpPoints]
      rw [if_neg hax]
      by_cases hxq : x ≤ q.1
      · have hql : q.1 = ((q :: rest2).getLast hne2).1 :=
          le_antisymm hq_le_last (le_trans hx hxq)
        have hlq : (q :: rest2).getLast hne2 = q := by
          rcases List.mem_cons.mp (List.getLast_mem hne2) with heq | hm2
          · exact heq
          · exact absurd hql
              (ne_of_lt (List.rel_of_pairwise_cons (keysSorted_pairwise hchain) hm2))
        have hxq' : x = q.1 := le_antisymm hxq (hql ▸ hx)
        rw [if_pos hxq, hlq, hxq']
        rw [mul_div_assoc, div_self (ne_of_gt (sub_pos.mpr haq)), mul_one]
        ring
      · rw [if_neg hxq]
        exact ih hchain hne2 hx

lemma interpPoints_bracket {curve : List (ℚ × ℚ)} (hs : keysSorted curve) :
    ∀ (i : ℕ) (h2 : i + 1 < curve.length) (x : ℚ),
      (curve.get ⟨i, Nat.lt_of_succ_lt h2⟩).1 ≤ x → x ≤ (curve.get ⟨i + 1, h2⟩).1 →
      interpPoints x curve
        = lininterp (curve.get ⟨i, Nat.lt_of_succ_lt h2⟩) (curve.get ⟨i + 1, h2⟩) x := by
  induction curve with
  | nil => intro i h2; simp at h2
  | cons a rest ih =>
    intro i h2 x hx1 hx2
    cases rest with
    | nil => simp at h2
    | cons q rest2 =>
      have hchain : keysSorted (q :: rest2) := keysSorted_tail hs
      have haq : a.1 < q.1 := (List.chain'_cons.mp hs).1
      cases i with
      | zero =>
        have hx1' : a.1 ≤ x := hx1
        have hx2' : x ≤ q.1 := hx2
        show interpPoints x (a :: q :: rest2) = lininterp a q x
        simp only [interpPoints]
        by_cases hxa : x ≤ a.1
        · rw [if_pos hxa]
          have hxa' : x = a.1 := le_antisymm hxa hx1'
          unfold lininterp
          rw [hxa', sub_self, mul_zero, zero_div, add_zero]
        · rw [if_neg hxa, if_pos hx2']
          rfl
      | succ j =>
        have hj1 : j + 1 < (q :: rest2).length := by
          simpa using h2
        have hx1' : ((q :: rest2).get ⟨j, Nat.lt_of_succ_lt hj1⟩).1 ≤ x := hx1
        have hx2' : x ≤ ((q :: rest2).get ⟨j + 1, hj1⟩).1 := hx2
        have hq_le : q.1 ≤ ((q :: rest2).get ⟨j, Nat.lt_of_succ_lt hj1⟩).1 :=
          keysSorted_head_le_get hchain j _
        have hax : ¬ x ≤ a.1 := not_le.mpr (lt_of_lt_of_le haq (le_trans hq_le hx1'))
        show interpPoints x (a :: q :: rest2)
          = lininterp ((q :: rest2).get ⟨j, Nat.lt_of_succ_lt hj1⟩)
              ((q :: rest2).get ⟨j + 1, hj1⟩) x
        simp only [interpPoints]
        rw [if_neg hax]
        by_cases hxq : x ≤ q.1
        · cases j with
          | zero =>
            have hxq' : x = q.1 := le_antisymm hxq hx1'
            have hg0 : (q :: rest2).get ⟨0, Nat.lt_of_succ_lt hj1⟩ = q := rfl
            rw [if_pos hxq, hxq', hg0]
            unfold lininterp
            rw [sub_self, mul_zero, zero_div, add_zero]
            rw [mul_div_assoc, div_self (ne_of_gt (sub_pos.mpr haq)), mul_one]
            ring
          | succ j' =>
            exfalso
            have hmem : (q :: rest2).get ⟨j' + 1, Nat.lt_of_succ_lt hj1⟩ ∈ rest2 := by
              rw [List.get_cons_succ]
              exact List.get_mem _ _ _
            have hlt : q.1 < ((q :: rest2).get ⟨j' + 1, Nat.lt_of_succ_lt hj1⟩).1 :=
              List.rel_of_pairwise_cons (keysSorted_pairwise hchain) hmem
            exact absurd (le_trans hx1' hxq) (not_le.mpr hlt)
        · rw [if_neg hxq]
          exact ih hchain j hj1 x hx1' hx2'

lemma interpolate_torque_ok {curve : List (ℚ × ℚ)} (hne : curve ≠ []) (x : ℚ) :
    interpolate_torque x curve = .ok (interpPoints x curve) := by
  rw [interpolate_torque, if_neg]
  simp [hne]

/-- C1: in both solver evaluations (the curve sweep's `sample_value` and the
shunting search's `shunt_traction`) the achievable traction force is
`min(generated, adhesion limit)` with the documented formulas, and therefore
never exceeds either operand. -/
theorem claim_C1 (c : Calc) (slope gear speed tq : ℚ) :
    actual_traction c gear tq
        = min (2 * (tq * gear * c.rear_axle_ratio) / c.wheel_dia_m)
            (c.loco_gvw_ton * c.friction_mu * 1000 * grav)
    ∧ actual_traction c gear tq ≤ traction_generated c gear tq
    ∧ actual_traction c gear tq ≤ traction_slipping c
    ∧ sample_value c false slope gear speed
        = actual_traction c gear
            (limited_torque c (engine_rpm c gear speed)
              (interpPoints (engine_rpm c gear speed) c.torque_curve))
    ∧ shunt_traction c speed
        = actual_traction c (pymax c.gear_ratios)
            (limited_torque c (engine_rpm c (pymax c.gear_ratios) speed)
              (interpPoints (engine_rpm c (pymax c.gear_ratios) speed) c.torque_curve)) :=
  ⟨rfl, min_le_left _ _, min_le_right _ _, rfl, rfl⟩

/-- C4: at any positive engine RPM, if the interpolated torque implies power
above `peak_power_kw` then the power-limited torque yields exactly
`peak_power_kw`, and the torque actually used never implies power above
`peak_power_kw`. -/
theorem claim_C4 (c : Calc) (rpm tq : ℚ) (hrpm : 0 < rpm) :
    (c.peak_power_kw < power_kw rpm tq →
      power_kw rpm (limited_torque c rpm tq) = c.peak_power_kw)
    ∧ power_kw rpm (limited_torque c rpm tq) ≤ c.peak_power_kw := by
  by_cases h : c.peak_power_kw < power_kw rpm tq
  · have heq : power_kw rpm (limited_torque c rpm tq) = c.peak_power_kw := by
      unfold limited_torque power_kw
      rw [if_pos ⟨h, hrpm⟩]
      have hne : rpm ≠ 0 := ne_of_gt hrpm
      have hpi : pi_f ≠ 0 := ne_of_gt pi_f_pos
      field_simp
      ring
    exact ⟨fun _ => heq, le_of_eq heq⟩
  · refine ⟨fun hc => absurd hc h, ?_⟩
    unfold limited_torque
    rw [if_neg (fun hand => h hand.1)]
    exact le_of_not_lt h

/-- Witness for C4 at a concrete positive RPM. -/
theorem claim_C4_witness :
    power_kw 1000 (limited_torque exampleCalc 1000 (interpPoints 1000 exCurve))
      ≤ exampleCalc.peak_power_kw :=
  (claim_C4 exampleCalc 1000 (interpPoints 1000 exCurve) (by norm_num)).2

/-- C10: the constructor converts a meters curve value to degrees via
`1750 / radius` only when the value is non-zero; a zero radius stays `0`
degrees, and construction never fails on the curve-radius input (it is total
in it whenever the torque curve is non-empty). -/
theorem claim_C10 (i : VPInputs) (hne : i.torque_curve ≠ []) :
    ∃ c, Calc.init i = .ok c
      ∧ c.max_curve_deg
          = (if i.curve_unit = "m" ∧ i.max_curve ≠ 0 then 1750 / i.max_curve else i.max_curve)
      ∧ (i.curve_unit = "m" → i.max_curve = 0 → c.max_curve_deg = 0) := by
  refine ⟨_, by rw [Calc.init, if_neg hne], rfl, ?_⟩
  intro _ h0
  simp [h0]

/-- Witness for C10: a meters-unit input with a zero radius constructs with
`max_curve_deg = 0`. -/
theorem claim_C10_witness :
    ∃ c, Calc.init { exampleInputs with curve_unit := "m", max_curve := 0 } = .ok c
      ∧ c.max_curve_deg
          = (if ({ exampleInputs with curve_unit := "m", max_curve := 0 } : VPInputs).curve_unit = "m"
                ∧ ({ exampleInputs with curve_unit := "m", max_curve := 0 } : VPInputs).max_curve ≠ 0
              then 1750 / ({ exampleInputs with curve_unit := "m", max_curve := 0 } : VPInputs).max_curve
              else ({ exampleInputs with curve_unit := "m", max_curve := 0 } : VPInputs).max_curve)
      ∧ (({ exampleInputs with curve_unit := "m", max_curve := 0 } : VPInputs).curve_unit = "m" →
          ({ exampleInputs with curve_unit := "m", max_curve := 0 } : VPInputs).max_curve = 0 →
          c.max_curve_deg = 0) :=
  claim_C10 { exampleInputs with curve_unit := "m", max_curve := 0 } (by decide)

/-- C8: an empty (or missing) torque curve makes `interpolate_torque` fail
with the invalid-curve error, and makes the constructor — and hence the whole
orchestration — fail immediately with its own invalid-curve error, so no
partial result is produced. -/
theorem claim_C8 (x : ℚ) (i : VPInputs) (hemp : i.torque_curve = []) :
    interpolate_torque x [] = .error "Torque curve is empty."
    ∧ interpolate_torque x i.torque_curve = .error "Torque curve is empty."
    ∧ Calc.init i = .error "Torque Curve is empty or missing."
    ∧ perform_vehicle_performance_calculation i
        = .error "Torque Curve is empty or missing." := by
  have h1 : Calc.init i = .error "Torque Curve is empty or missing." := by
    rw [Calc.init, if_pos hemp]
  refine ⟨rfl, by rw [hemp]; rfl, h1, ?_⟩
  rw [perform_vehicle_performance_calculation, h1]
  rfl

/-- Witness for C8 at the concrete empty-curve input. -/
theorem claim_C8_witness :
    interpolate_torque 1200 [] = .error "Torque curve is empty."
    ∧ interpolate_torque 1200 emptyCurveInputs.torque_curve
        = .error "Torque curve is empty."
    ∧ Calc.init emptyCurveInputs = .error "Torque Curve is empty or missing."
    ∧ perform_vehicle_performance_calculation emptyCurveInputs
        = .error "Torque Curve is empty or missing." :=
  claim_C8 1200 emptyCurveInputs rfl

/-- C9: the shunting-capability dataset does not depend on the configured
trailing load at all, and whenever the remaining force is positive the
recorded value divides it by the fixed 1-tonne wagon probe resistance
(rolling + gradient + curvature + starting of a 1-tonne wagon). -/
theorem claim_C9 (c : Calc) (a b slope gear speed actual : ℚ)
    (hrem : 0 < actual - loco_resistance_start c speed slope)
    (hden : 0 < one_ton_wagon_resistance c speed slope) :
    calculate_curves_common { c with shunting_load_t := a } true
      = calculate_curves_common { c with shunting_load_t := b } true
    ∧ sample_value { c with shunting_load_t := a } true slope gear speed
      = sample_value { c with shunting_load_t := b } true slope gear speed
    ∧ shunting_capacity_y c speed slope actual
        = (actual - loco_resistance_start c speed slope)
          / (rolling_resistance_wagon speed 1 + gradient_resistance 1 slope
             + curvature_resistance 1 c.max_curve_deg + starting_resistance_wagon 1) := by
  refine ⟨rfl, rfl, ?_⟩
  unfold shunting_capacity_y
  rw [if_pos hrem, if_pos hden]
  rfl

/-- Witness for C9: with a large concrete achievable force the capacity is
the remaining force over the 1-tonne probe resistance. -/
theorem claim_C9_witness :
    shunting_capacity_y smallCalc 0 0 1000000
      = (1000000 - loco_resistance_start smallCalc 0 0)
        / (rolling_resistance_wagon 0 1 + gradient_resistance 1 0
           + curvature_resistance 1 smallCalc.max_curve_deg + starting_resistance_wagon 1) :=
  (claim_C9 smallCalc 0 7 0 1 0 1000000 (by norm_num [loco_resistance_start,
    rolling_resistance_loco, gradient_resistance, curvature_resistance,
    starting_resistance_loco, smallCalc, grav])
    (by norm_num [one_ton_wagon_resistance, rolling_resistance_wagon,
      gradient_resistance, curvature_resistance, starting_resistance_wagon, smallCalc, grav])).2.2

/-- C2 (code evaluation at the failing input): an input whose
`rear_axle_ratio` is `0` passes the schema validation unchanged, the
constructor accepts it, both performance-curve sweeps execute and silently
skip every gear combination — returning empty datasets with no error — and
only the later speed-table step raises, naming no offending field-level
`DegenerateParameter`. -/
theorem claim_C2_code_evaluation :
    schema_validate degenInputs = .ok degenInputs
    ∧ Calc.init degenInputs = .ok degenCalc
    ∧ calculate_curves_common degenCalc false = []
    ∧ calculate_curves_common degenCalc true = []
    ∧ calculate_speed_for_shunting_load degenCalc
        = .error "Axle Ratio or Wheel Diameter cannot be zero." := by
  refine ⟨?_, ?_, ?_, ?_, ?_⟩
  · unfold schema_validate
    rw [if_neg (by norm_num [degenInputs]), if_neg (by norm_num [degenInputs]),
      if_neg (by norm_num [degenInputs]), if_neg (by simp [degenInputs]),
      if_neg (by norm_num [degenInputs])]
  · unfold Calc.init
    rw [if_neg (by simp [degenInputs, exCurve])]
    simp only [degenInputs, degenCalc, exCurve, pymax, List.map_cons, List.map_nil,
      List.foldl_cons, List.foldl_nil, Except.ok.injEq]
    norm_num
    decide
  · simp [calculate_curves_common, degenCalc]
  · simp [calculate_curves_common, degenCalc]
  · rw [calculate_speed_for_shunting_load,
      if_pos (Or.inl (by norm_num [degenCalc]))]

/-- C7 (counterexample): in the spec-§8 configuration (gear `8.5`, rear-axle
`3.5`, `min_rpm = 400`) the curve sweep's lowest sampled speed is `0`, while
the `min_rpm`-derived feasible lower speed the claim requires is non-zero. -/
theorem claim_C7_counterexample :
    (sweep_speeds exampleCalc (85 / 10)).getD 0 42 = 0
    ∧ spec_min_speed_kmh exampleCalc (85 / 10) ≠ 0
    ∧ (sweep_speeds exampleCalc (85 / 10)).getD 0 42
        ≠ spec_min_speed_kmh exampleCalc (85 / 10) := by
  refine ⟨?_, ?_, ?_⟩
  · rw [sweep_speeds, linspace_getD _ _ (by norm_num)]
    norm_num
  · norm_num [spec_min_speed_kmh, exampleCalc, pi_f]
  · rw [sweep_speeds, linspace_getD _ _ (by norm_num)]
    norm_num [spec_min_speed_kmh, exampleCalc, pi_f]

/-- C7 (amended): for every configuration and gear, the curve sweep samples
exactly 100 speeds; sample `i` is `maxSpeed · i / 99` where `maxSpeed`
derives from `max_rpm` alone via the wheel-circumference conversion — so the
samples span `[0, maxSpeed]` evenly, with the lowest sample always `0`
regardless of `min_rpm`. -/
theorem claim_C7_amended (c : Calc) (gear : ℚ) :
    (sweep_speeds c gear).length = 100
    ∧ (sweep_speeds c gear).getD 0 42 = 0
    ∧ (sweep_speeds c gear).getD 99 42
        = (c.max_rpm * pi_f * c.wheel_dia_m) / (gear * c.rear_axle_ratio * 60) * (36 / 10)
    ∧ ∀ i : ℕ, i < 100 →
        (sweep_speeds c gear).getD i 42
          = ((c.max_rpm * pi_f * c.wheel_dia_m) / (gear * c.rear_axle_ratio * 60) * (36 / 10))
            * (i : ℚ) / 99 := by
  have hgen : ∀ i : ℕ, i < 100 →
      (sweep_speeds c gear).getD i 42
        = ((c.max_rpm * pi_f * c.wheel_dia_m) / (gear * c.rear_axle_ratio * 60) * (36 / 10))
          * (i : ℚ) / 99 := by
    intro i hi
    rw [sweep_speeds, linspace_getD _ _ hi]
    push_cast
    ring
  refine ⟨by rw [sweep_speeds, linspace_length], ?_, ?_, hgen⟩
  · rw [hgen 0 (by norm_num)]
    norm_num
  · rw [hgen 99 (by norm_num)]
    norm_num

/-- Witness for C7 (amended) at the concrete spec-§8 configuration. -/
theorem claim_C7_amended_witness :
    (sweep_speeds exampleCalc (85 / 10)).getD 99 42
      = ((exampleCalc.max_rpm * pi_f * exampleCalc.wheel_dia_m)
          / ((85 / 10) * exampleCalc.rear_axle_ratio * 60) * (36 / 10)) * (99 : ℚ) / 99 :=
  (claim_C7_amended exampleCalc (85 / 10)).2.2.2 99 (by norm_num)

/-- C3: on every non-empty torque curve with strictly ascending keys,
`interpolate_torque` returns exactly the curve's torque at a curve key,
clamps to the nearest endpoint torque below the minimum key and above the
maximum key, and performs linear interpolation between the two bracketing
points inside the key range. -/
theorem claim_C3 (curve : List (ℚ × ℚ)) (hs : keysSorted curve) (hne : curve ≠ []) :
    (∀ p ∈ curve, interpolate_torque p.1 curve = .ok p.2)
    ∧ (∀ x, x ≤ (curve.head hne).1 →
        interpolate_torque x curve = .ok (curve.head hne).2)
    ∧ (∀ x, (curve.getLast hne).1 ≤ x →
        interpolate_torque x curve = .ok (curve.getLast hne).2)
    ∧ (∀ (i : ℕ) (h2 : i + 1 < curve.length) (x : ℚ),
        (curve.get ⟨i, Nat.lt_of_succ_lt h2⟩).1 ≤ x → x ≤ (curve.get ⟨i + 1, h2⟩).1 →
        interpolate_torque x curve
          = .ok (lininterp (curve.get ⟨i, Nat.lt_of_succ_lt h2⟩) (curve.get ⟨i + 1, h2⟩) x)) := by
  refine ⟨?_, ?_, ?_, ?_⟩
  · intro p hp
    rw [interpolate_torque_ok hne, interpPoints_mem hs p hp]
  · intro x hx
    rw [interpolate_torque_ok hne]
    cases curve with
    | nil => exact absurd rfl hne
    | cons a rest =>
      rw [interpPoints_head_clamp a rest x hx]
      rfl
  · intro x hx
    rw [interpolate_torque_ok hne, interpPoints_last_clamp hs hne x hx]
  · intro i h2 x hx1 hx2
    rw [interpolate_torque_ok hne, interpPoints_bracket hs i h2 x hx1 hx2]

/-- Witness for C3 on the spec-§8 torque curve: at the curve key `1200` the
interpolator returns exactly `18000`, and between the keys `400` and `1200`
(at `800`) it returns the linear interpolant. -/
theorem claim_C3_witness :
    interpolate_torque 1200 exCurve = .ok 18000
    ∧ interpolate_torque 800 exCurve
        = .ok (lininterp (exCurve.get ⟨0, by norm_num [exCurve]⟩)
            (exCurve.get ⟨1, by norm_num [exCurve]⟩) 800) := by
  constructor
  · have h := (claim_C3 exCurve (by norm_num [keysSorted, exCurve])
      (by simp [exCurve])).1 (1200, 18000) (by norm_num [exCurve])
    exact h
  · have h := (claim_C3 exCurve (by norm_num [keysSorted, exCurve])
      (by simp [exCurve])).2.2.2 0 (by norm_num [exCurve]) 800
      (by norm_num [exCurve]) (by norm_num [exCurve])
    exact h

lemma shunting_capacity_y_nonneg (c : Calc) (speed slope actual : ℚ) :
    0 ≤ shunting_capacity_y c speed slope actual := by
  unfold shunting_capacity_y
  dsimp only
  split_ifs with h1 h2
  · exact le_of_lt (div_pos h1 h2)
  · exact le_rfl
  · exact le_rfl

lemma one_ton_wagon_resistance_pos (c : Calc) {speed slope : ℚ}
    (hsp : 0 ≤ speed) (hsl : 0 ≤ slope) (hc : 0 ≤ c.max_curve_deg) :
    0 < one_ton_wagon_resistance c speed slope := by
  unfold one_ton_wagon_resistance rolling_resistance_wagon gradient_resistance
    curvature_resistance starting_resistance_wagon grav
  rw [if_neg (by norm_num)]
  nlinarith [sq_nonneg speed, mul_nonneg hsp hsp, hc, hsl]

/-- C5: every value of the shunting-capability dataset is non-negative; a
sample whose achievable force does not exceed the locomotive resistance
records exactly `0`, and a sample with positive remaining force records the
remaining force divided by the 1-tonne wagon probe resistance. -/
theorem claim_C5 (c : Calc) :
    (∀ p ∈ calculate_curves_common c true, 0 ≤ p.value)
    ∧ (∀ slope gear speed, sample_value c true slope gear speed
        = shunting_capacity_y c speed slope
            (actual_traction c gear
              (limited_torque c (engine_rpm c gear speed)
                (interpPoints (engine_rpm c gear speed) c.torque_curve))))
    ∧ (∀ slope speed actual, actual ≤ loco_resistance_start c speed slope →
        shunting_capacity_y c speed slope actual = 0)
    ∧ (∀ slope speed actual, 0 ≤ speed → 0 ≤ slope → 0 ≤ c.max_curve_deg →
        loco_resistance_start c speed slope < actual →
        shunting_capacity_y c speed slope actual
          = (actual - loco_resistance_start c speed slope)
            / one_ton_wagon_resistance c speed slope) := by
  refine ⟨?_, fun _ _ _ => rfl, ?_, ?_⟩
  · intro p hp
    simp only [calculate_curves_common, List.mem_flatMap] at hp
    obtain ⟨slope, _, gear, _, hp⟩ := hp
    by_cases hcond : c.rear_axle_ratio ≤ 0 ∨ c.wheel_dia_m ≤ 0 ∨ gear ≤ 0
    · rw [if_pos hcond] at hp
      cases hp
    · rw [if_neg hcond] at hp
      simp only [List.mem_map] at hp
      obtain ⟨speed, _, rfl⟩ := hp
      exact pyRound2_nonneg (shunting_capacity_y_nonneg c speed slope _)
  · intro slope speed actual h
    unfold shunting_capacity_y
    dsimp only
    rw [if_neg (not_lt.mpr (sub_nonpos.mpr h))]
  · intro slope speed actual hsp hsl hc h
    unfold shunting_capacity_y
    dsimp only
    rw [if_pos (sub_pos.mpr h), if_pos (one_ton_wagon_resistance_pos c hsp hsl hc)]

/-- Witness for C5: a sample with zero achievable force on the small
configuration records exactly `0` capacity. -/
theorem claim_C5_witness : shunting_capacity_y smallCalc 0 0 0 = 0 :=
  (claim_C5 smallCalc).2.2.1 0 0 0
    (by norm_num [loco_resistance_start, rolling_resistance_loco, gradient_resistance,
      curvature_resistance, starting_resistance_loco, smallCalc, grav])

lemma linspace_chain_le {a b : ℚ} (h : a ≤ b) {n : ℕ} (hn : 1 ≤ n) :
    (linspace a b n).Chain' (· ≤ ·) := by
  unfold linspace
  refine List.Pairwise.chain' ?_
  rw [List.pairwise_map]
  refine List.Pairwise.imp ?_ (List.pairwise_lt_range n)
  intro i j hij
  have hij' : (i : ℚ) ≤ (j : ℚ) := by exact_mod_cast le_of_lt hij
  have hd : (0 : ℚ) ≤ (n : ℚ) - 1 := by
    have : (1 : ℚ) ≤ (n : ℚ) := by exact_mod_cast hn
    linarith
  rcases eq_or_lt_of_le hd with hd0 | hdpos
  · rw [← hd0, div_zero, div_zero]
  · have hnum : (b - a) * (i : ℚ) ≤ (b - a) * (j : ℚ) :=
      mul_le_mul_of_nonneg_left hij' (sub_nonneg.mpr h)
    exact add_le_add_left ((div_le_div_iff_of_pos_right hdpos).mpr hnum) a

lemma linspace_mem_nonneg {a b : ℚ} (h0 : 0 ≤ a) (hab : a ≤ b) {n : ℕ} (hn : 1 ≤ n) :
    ∀ v ∈ linspace a b n, 0 ≤ v := by
  intro v hv
  simp only [linspace, List.mem_map, List.mem_range] at hv
  obtain ⟨i, _, rfl⟩ := hv
  have hd : (0 : ℚ) ≤ (n : ℚ) - 1 := by
    have : (1 : ℚ) ≤ (n : ℚ) := by exact_mod_cast hn
    linarith
  have : (0 : ℚ) ≤ (b - a) * (i : ℚ) / ((n : ℚ) - 1) :=
    div_nonneg (mul_nonneg (sub_nonneg.mpr hab) (Nat.cast_nonneg i)) hd
  linarith

lemma shunt_fold_mono (c : Calc) (s1 s2 : ℚ)
    (hQP : ∀ v, shunt_resistance c s2 v ≤ shunt_traction c v →
      shunt_resistance c s1 v ≤ shunt_traction c v) :
    ∀ (l : List ℚ), l.Pairwise (· ≤ ·) → ∀ aQ aP : ℚ, aQ ≤ aP → (∀ v ∈ l, aQ ≤ v) →
      l.foldl (fun acc v => if shunt_resistance c s2 v ≤ shunt_traction c v then v else acc) aQ
        ≤ l.foldl (fun acc v => if shunt_resistance c s1 v ≤ shunt_traction c v then v else acc) aP := by
  intro l
  induction l with
  | nil => intro _ aQ aP h _; simpa using h
  | cons v t ih =>
    intro hpw aQ aP haa hal
    simp only [List.foldl_cons]
    refine ih (List.Pairwise.of_cons hpw) _ _ ?_ ?_
    · by_cases hq : shunt_resistance c s2 v ≤ shunt_traction c v
      · rw [if_pos hq, if_pos (hQP v hq)]
      · rw [if_neg hq]
        by_cases hp : shunt_resistance c s1 v ≤ shunt_traction c v
        · rw [if_pos hp]
          exact hal v (List.mem_cons_self v t)
        · rw [if_neg hp]
          exact haa
    · intro u hu
      by_cases hq : shunt_resistance c s2 v ≤ shunt_traction c v
      · rw [if_pos hq]
        exact List.rel_of_pairwise_cons hpw hu
      · rw [if_neg hq]
        exact hal u (List.mem_cons_of_mem v hu)

/-- C6: for a fixed configuration, a fixed trailing load and a fixed grid of
sampled speeds (whose bounds are in the proper order and non-negative, as
they are for every positive-parameter configuration), the shunting
analyzer's max achievable speed — and its rounded value reported in the
speed-vs-slope table — is monotonically non-increasing in the slope. -/
theorem claim_C6 (c : Calc) (s1 s2 : ℚ)
    (hminmax : shunt_min_speed c ≤ shunt_max_speed c)
    (hmin0 : 0 ≤ shunt_min_speed c)
    (hw : 0 ≤ c.loco_gvw_ton) (hl : 0 ≤ c.shunting_load_t)
    (h12 : s1 ≤ s2) :
    max_achievable_speed c s2 ≤ max_achievable_speed c s1
    ∧ pyRound2 (max_achievable_speed c s2) ≤ pyRound2 (max_achievable_speed c s1) := by
  have key : ∀ w : ℚ, 0 ≤ w →
      w * 1000 * grav * s1 / 100 ≤ w * 1000 * grav * s2 / 100 := by
    intro w hw0
    have h0 : 0 ≤ w * 1000 * grav :=
      mul_nonneg (mul_nonneg hw0 (by norm_num)) (le_of_lt grav_pos)
    have := mul_le_mul_of_nonneg_left h12 h0
    linarith
  have hres : ∀ v, shunt_resistance c s1 v ≤ shunt_resistance c s2 v := by
    intro v
    unfold shunt_resistance gradient_resistance
    have h1 := key c.loco_gvw_ton hw
    have h2 := key c.shunting_load_t hl
    linarith
  have hQP : ∀ v, shunt_resistance c s2 v ≤ shunt_traction c v →
      shunt_resistance c s1 v ≤ shunt_traction c v :=
    fun v hv => le_trans (hres v) hv
  have hpw : (shunt_speeds c).Pairwise (· ≤ ·) :=
    List.chain'_iff_pairwise.mp (linspace_chain_le hminmax (by norm_num))
  have hmem : ∀ v ∈ shunt_speeds c, 0 ≤ v :=
    linspace_mem_nonneg hmin0 hminmax (by norm_num)
  have hmain : max_achievable_speed c s2 ≤ max_achievable_speed c s1 :=
    shunt_fold_mono c s1 s2 hQP (shunt_speeds c) hpw 0 0 le_rfl hmem
  exact ⟨hmain, pyRound2_mono hmain⟩

/-- Witness for C6 at the small configuration, between the table's first two
slope increments `0` and `0.5`. -/
theorem claim_C6_witness :
    max_achievable_speed smallCalc (1 / 2) ≤ max_achievable_speed smallCalc 0
    ∧ pyRound2 (max_achievable_speed smallCalc (1 / 2))
        ≤ pyRound2 (max_achievable_speed smallCalc 0) :=
  claim_C6 smallCalc 0 (1 / 2)
    (by norm_num [shunt_min_speed, shunt_max_speed, pymax, pymin, smallCalc, pi_f])
    (by norm_num [shunt_min_speed, pymax, smallCalc, pi_f])
    (by norm_num [smallCalc]) (by norm_num [smallCalc]) (by norm_num)

end VehiclePerf
